import Mathlib

/-
Verification of the ABC UI-automation engine (Rust crate abc-uiautomation).

The Rust code drives a legacy accounting application through the Windows
accessibility tree.  Every interaction with the host application goes through
a small set of primitives: creating a matcher (a query with a scope, name or
class-name predicates and a timeout), find_first or find_all on that matcher,
send_keys or hold_send_keys on an element, click, and fixed sleeps.

The shallow embedding below mirrors each source function step by step.  The
external accessibility provider is modelled by an environment record with one
field per call site of a fallible primitive (the outcome the provider gives
at that point of the run).  Every run also accumulates a trace of the actions
the function attempted, so that theorems can speak about which queries were
issued and which keystrokes were sent, in which order.
-/

namespace Abc

/-- Base delay unit in milliseconds, `SHORT_WAIT_MS` in src/lib.rs. -/
def SHORT_WAIT_MS : Nat := 100

/-- Model of `uiautomation::Error`: an error code plus a message, as built by
`uiautomation::Error::new(code, message)`. -/
structure UIErr where
  code : Int
  message : String
deriving DecidableEq, Repr

/-- Result type of fallible provider calls, `uiautomation::Result` in Rust. -/
abbrev Res (α : Type) : Type := Except UIErr α

/-- Decidable equality for `Except`, needed so that concrete runs can be
checked by `decide`. -/
instance {ε α : Type} [DecidableEq ε] [DecidableEq α] :
    DecidableEq (Except ε α) := fun x y =>
  match x, y with
  | .ok a, .ok b =>
    if h : a = b then .isTrue (by rw [h]) else
      .isFalse (by intro hc; exact h (Except.ok.inj hc))
  | .error a, .error b =>
    if h : a = b then .isTrue (by rw [h]) else
      .isFalse (by intro hc; exact h (Except.error.inj hc))
  | .ok _, .error _ => .isFalse (by intro hc; exact Except.noConfusion hc)
  | .error _, .ok _ => .isFalse (by intro hc; exact Except.noConfusion hc)

/-- Model of a `UIElement` handle: an identity, the class name and display
name the provider reports, and the outcome of reading its value property
(`get_property_value(UIProperty::ValueValue)` followed by `get_string`). -/
structure UIElem where
  id : String
  classname : String
  name : String
  value : Res String
deriving DecidableEq, Repr

/-- Model of a `UIMatcher` query: scope element, optional contains-name,
equals-name and class-name predicates, and the timeout in milliseconds. -/
structure Matcher where
  scope : String
  containsName : Option String
  nameEq : Option String
  classname : Option String
  timeout : Nat
deriving DecidableEq, Repr

/-- Timeout installed by `create_matcher_wrapper` in src/lib.rs:
`SHORT_WAIT_MS * 30`. -/
def create_matcher_wrapper_timeout : Nat := SHORT_WAIT_MS * 30

/-- Matcher built by `create_matcher_wrapper(..).classname("ThunderRT6TextBox").from(w)`:
scope `w`, class-name predicate `ThunderRT6TextBox`, wrapper timeout. -/
def invoiceTextBoxMatcher (w : String) : Matcher :=
  ⟨w, none, none, some "ThunderRT6TextBox", create_matcher_wrapper_timeout⟩

/-- Matcher built in `load_invoices_screen`:
`create_matcher_wrapper(..).contains_name("Sales - Invoices (R)")`. -/
def invoicesScreenMatcher : Matcher :=
  ⟨"root", some "Sales - Invoices (R)", none, none, create_matcher_wrapper_timeout⟩

/-- Matcher built in `load_customer_screen`:
`create_matcher_wrapper(..).contains_name("Sales - Customers (C)")`. -/
def customersScreenMatcher : Matcher :=
  ⟨"root", some "Sales - Customers (C)", none, none, create_matcher_wrapper_timeout⟩

/-- Matcher built in `jdf_account_by_customer`: scope is the customer screen,
class-name `ThunderRT6TextBox`, timeout `SHORT_WAIT_MS` (built directly on
`create_matcher`, not through the wrapper). -/
def jdfTextBoxMatcher (cs : String) : Matcher :=
  ⟨cs, none, none, some "ThunderRT6TextBox", SHORT_WAIT_MS⟩

/-- Matcher built in `send_ctrl_n` for the save-changes popup: root scope,
equals-name predicate, timeout `SHORT_WAIT_MS / 2`. -/
def saveChangesPopupMatcher : Matcher :=
  ⟨"root", none, some "Save changes before proceeding?", none, SHORT_WAIT_MS / 2⟩

/-- One observable action attempted during a run: a find query, a keystroke
dispatch (plain or modifier-held), a click, or a fixed sleep. -/
inductive Action where
  | findFirstQ (q : Matcher)
  | findAllQ (q : Matcher)
  | sendKeys (target keys : String) (interval : Nat)
  | holdSendKeys (target holdKeys mainKeys : String) (interval : Nat)
  | click (target : String)
  | waitMs (ms : Nat)
deriving DecidableEq, Repr

/-- Whether an action dispatches keystrokes into the host application. -/
def Action.isKeystroke : Action → Bool
  | .sendKeys _ _ _ => true
  | .holdSendKeys _ _ _ _ => true
  | _ => false

/-- Sequencing of fallible, trace-accumulating steps: on error, stop and keep
the trace so far (mirrors the Rust `?` operator). -/
def andThen {α β : Type} (x : Res α × List Action)
    (f : α → List Action → Res β × List Action) : Res β × List Action :=
  match x with
  | (.ok a, tr) => f a tr
  | (.error e, tr) => (.error e, tr)

/-- A `send_keys` call site: the attempt is recorded in the trace, the
provider outcome `r` decides success. -/
def sendStep (target keys : String) (interval : Nat) (r : Res Unit)
    (tr : List Action) : Res Unit × List Action :=
  (r, tr ++ [Action.sendKeys target keys interval])

/-- A `hold_send_keys` call site. -/
def holdStep (target holdKeys mainKeys : String) (interval : Nat) (r : Res Unit)
    (tr : List Action) : Res Unit × List Action :=
  (r, tr ++ [Action.holdSendKeys target holdKeys mainKeys interval])

/-- A `click` call site. -/
def clickStep (target : String) (r : Res Unit) (tr : List Action) :
    Res Unit × List Action :=
  (r, tr ++ [Action.click target])

/-- A `find_first` call site whose result is propagated with `?`. -/
def findFirstStep (q : Matcher) (r : Res UIElem) (tr : List Action) :
    Res UIElem × List Action :=
  (r, tr ++ [Action.findFirstQ q])

/-- A `find_first` call site whose result is inspected rather than
propagated (`if let Ok(..)` or a `match` in the source). -/
def findFirstTryStep (q : Matcher) (tr : List Action) :
    Res Unit × List Action :=
  (.ok (), tr ++ [Action.findFirstQ q])

/-- A `find_all` call site. -/
def findAllStep (q : Matcher) (r : Res (List UIElem)) (tr : List Action) :
    Res (List UIElem) × List Action :=
  (r, tr ++ [Action.findAllQ q])

/-- A `wait(ms)` call site (cannot fail). -/
def waitStep (ms : Nat) (tr : List Action) : Res Unit × List Action :=
  (.ok (), tr ++ [Action.waitMs ms])

/-- Indexing `Vec::get(i)` on the collected controls: out of range yields the
given error (mirrors the `match .. { Some(c) => c, None => return Err(..) }`
blocks in the source). -/
def getOrdinal (boxes : List UIElem) (i : Nat) (e : UIErr) (tr : List Action) :
    Res UIElem × List Action :=
  (match boxes[i]? with
   | some b => .ok b
   | none => .error e, tr)

/-- Provider outcomes for one run of `generate_report_323` /
`generate_report_311` (src/reports.rs): one field per `send_keys` call. -/
structure ReportEnv where
  send1 : Res Unit
  send2 : Res Unit
  send3 : Res Unit
deriving Repr

/-- Embedding of `generate_report_323` (src/reports.rs lines 165-182): three
`send_keys` macros with fixed sleeps between them, aborting on the first
failure via `?`. -/
def generate_report_323 (env : ReportEnv) (abcWindow : String)
    (starting_invoice ending_invoice : Nat) (tr : List Action) :
    Res Unit × List Action :=
  andThen (sendStep abcWindow "{F10}3" (SHORT_WAIT_MS * 3) env.send1 tr) fun _ tr =>
  andThen (waitStep (SHORT_WAIT_MS * 5) tr) fun _ tr =>
  andThen (sendStep abcWindow "23{enter}" (SHORT_WAIT_MS / 2) env.send2 tr) fun _ tr =>
  andThen (waitStep (SHORT_WAIT_MS * 5) tr) fun _ tr =>
  andThen (sendStep abcWindow
      ("{enter}" ++ toString starting_invoice ++ "{enter}"
        ++ toString ending_invoice ++ "{enter}t")
      (SHORT_WAIT_MS / 2) env.send3 tr) fun _ tr =>
  (.ok (), tr)

/-- Embedding of `generate_report_311` (src/reports.rs lines 200-217):
identical shape, different menu keys. -/
def generate_report_311 (env : ReportEnv) (abcWindow : String)
    (starting_invoice ending_invoice : Nat) (tr : List Action) :
    Res Unit × List Action :=
  andThen (sendStep abcWindow "{F10}3" (SHORT_WAIT_MS * 3) env.send1 tr) fun _ tr =>
  andThen (waitStep (SHORT_WAIT_MS * 5) tr) fun _ tr =>
  andThen (sendStep abcWindow "11{enter}{enter}{enter}" (SHORT_WAIT_MS / 2) env.send2 tr) fun _ tr =>
  andThen (waitStep (SHORT_WAIT_MS * 5) tr) fun _ tr =>
  andThen (sendStep abcWindow
      ("{enter}" ++ toString starting_invoice ++ "{enter}"
        ++ toString ending_invoice ++ "{enter}t")
      (SHORT_WAIT_MS / 2) env.send3 tr) fun _ tr =>
  (.ok (), tr)

/-- Provider outcomes for one run of `load_invoice` (src/lib.rs lines
373-384): `UIAutomation::new()`, `get_root_element` inside
`create_matcher_wrapper`, the `find_first` for the first `ThunderRT6TextBox`,
the `click`, and the `send_keys` of the invoice number. -/
structure LoadInvoiceEnv where
  automationNew : Res Unit
  rootElem : Res Unit
  findInvoiceNumControl : Res UIElem
  clickRes : Res Unit
  sendKeysRes : Res Unit
deriving Repr

/-- Embedding of `load_invoice` (src/lib.rs lines 373-384, duplicated in
src/accounts_receivable.rs lines 73-84): find the first `ThunderRT6TextBox`
in the invoices window, click it, and type the invoice number followed by
enter. -/
def load_invoice (env : LoadInvoiceEnv) (invoicesWindow : String)
    (invoice_num : Nat) (tr : List Action) : Res Unit × List Action :=
  andThen (env.automationNew, tr) fun _ tr =>
  andThen (env.rootElem, tr) fun _ tr =>
  andThen (findFirstStep (invoiceTextBoxMatcher invoicesWindow)
      env.findInvoiceNumControl tr) fun ctrl tr =>
  andThen (clickStep ctrl.id env.clickRes tr) fun _ tr =>
  andThen (sendStep ctrl.id (toString invoice_num ++ "{enter}") SHORT_WAIT_MS
      env.sendKeysRes tr) fun _ tr =>
  (.ok (), tr)

/-- Provider outcomes for one run of `send_invoice_to_jdf` (src/lib.rs lines
418-458): outer `UIAutomation::new()`, the nested `load_invoice` outcomes,
the `get_root_element` and `find_all` collecting all `ThunderRT6TextBox`
controls, the resubmission `send_keys`, the post-macro `get_root_element`
and `find_first`, and the three keystroke dispatches of the discard path. -/
structure SendInvoiceEnv where
  automationNew : Res Unit
  load : LoadInvoiceEnv
  rootElem2 : Res Unit
  findAllTextBoxes : Res (List UIElem)
  sendResubmit : Res Unit
  rootElem3 : Res Unit
  findFirstTextBox : Res UIElem
  sendEnterEsc : Res Unit
  holdCtrlN : Res Unit
  sendRightEnter : Res Unit
deriving Repr

/-- Embedding of `send_invoice_to_jdf` (src/lib.rs lines 418-458, duplicated
in src/accounts_receivable.rs lines 118-158).  Load the invoice, read the
text box at index 29 (the paid field); if its value is non-empty return
`Ok(true)` at once.  Otherwise send the `{F9}7R` resubmission macro, wait
2000 ms, re-read the first `ThunderRT6TextBox`; if it still shows the
invoice number send `{enter}{esc}`, a held Ctrl+N, then `{right}{enter}` and
return `Ok(false)`; if it shows something else return `Ok(true)`. -/
def send_invoice_to_jdf (env : SendInvoiceEnv) (invoicesWindow : String)
    (invoice_num : Nat) (tr : List Action) : Res Bool × List Action :=
  andThen (env.automationNew, tr) fun _ tr =>
  andThen (load_invoice env.load invoicesWindow invoice_num tr) fun _ tr =>
  andThen (env.rootElem2, tr) fun _ tr =>
  andThen (findAllStep (invoiceTextBoxMatcher invoicesWindow)
      env.findAllTextBoxes tr) fun boxes tr =>
  andThen (getOrdinal boxes 29 ⟨2, "could not find paid control"⟩ tr) fun paid tr =>
  andThen (paid.value, tr) fun paidVal tr =>
  if paidVal ≠ "" then (.ok true, tr)
  else
  andThen (sendStep invoicesWindow "{F9}7R" (SHORT_WAIT_MS * 3) env.sendResubmit tr) fun _ tr =>
  andThen (waitStep 2000 tr) fun _ tr =>
  andThen (env.rootElem3, tr) fun _ tr =>
  andThen (findFirstStep (invoiceTextBoxMatcher invoicesWindow)
      env.findFirstTextBox tr) fun ctrl tr =>
  andThen (ctrl.value, tr) fun v tr =>
  if toString invoice_num = v then
    andThen (sendStep invoicesWindow "{enter}{esc}" (SHORT_WAIT_MS * 3)
        env.sendEnterEsc tr) fun _ tr =>
    andThen (holdStep invoicesWindow "{ctrl}" "n" (SHORT_WAIT_MS * 3)
        env.holdCtrlN tr) fun _ tr =>
    andThen (sendStep invoicesWindow "{right}{enter}" (SHORT_WAIT_MS * 3)
        env.sendRightEnter tr) fun _ tr =>
    (.ok false, tr)
  else (.ok true, tr)

/-- Provider outcomes for one run of `is_invoice_fully_paid` (src/lib.rs
lines 491-523): outer `UIAutomation::new()`, the nested `load_invoice`
outcomes, and the `get_root_element` and `find_all` collecting the
`ThunderRT6TextBox` controls. -/
structure IsPaidEnv where
  automationNew : Res Unit
  load : LoadInvoiceEnv
  rootElem2 : Res Unit
  findAllTextBoxes : Res (List UIElem)
deriving Repr

/-- Embedding of `is_invoice_fully_paid` (src/lib.rs lines 491-523,
duplicated in src/accounts_receivable.rs lines 191-223).  Load the invoice,
take the text boxes at indices 29 (paid) and 38 (total), read both values
and return their string equality. -/
def is_invoice_fully_paid (env : IsPaidEnv) (invoicesWindow : String)
    (invoice_num : Nat) (tr : List Action) : Res Bool × List Action :=
  andThen (env.automationNew, tr) fun _ tr =>
  andThen (load_invoice env.load invoicesWindow invoice_num tr) fun _ tr =>
  andThen (env.rootElem2, tr) fun _ tr =>
  andThen (findAllStep (invoiceTextBoxMatcher invoicesWindow)
      env.findAllTextBoxes tr) fun boxes tr =>
  andThen (getOrdinal boxes 29 ⟨2, "could not find paid control"⟩ tr) fun paid tr =>
  andThen (getOrdinal boxes 38 ⟨2, "could not find invoice total control"⟩ tr) fun total tr =>
  andThen (paid.value, tr) fun paidVal tr =>
  andThen (total.value, tr) fun totalVal tr =>
  (.ok (paidVal == totalVal), tr)

/-- Provider outcomes for one run of `jdf_account_by_customer`
(src/customer_file.rs lines 64-88): `UIAutomation::new()`, the `send_keys`
selecting the customer, and the `find_all` collecting the
`ThunderRT6TextBox` controls. -/
structure JdfAccountEnv where
  automationNew : Res Unit
  sendCustomerKeys : Res Unit
  findAllTextBoxes : Res (List UIElem)
deriving Repr

/-- Embedding of `jdf_account_by_customer` (src/customer_file.rs lines 64-88,
duplicated in src/lib.rs lines 278-302).  Type the customer code, collect
all `ThunderRT6TextBox` controls; if index 28 is absent return `Ok("")`
(the empty string, not an error), otherwise read that control value. -/
def jdf_account_by_customer (env : JdfAccountEnv) (customerScreen : String)
    (customer_code : String) (tr : List Action) : Res String × List Action :=
  andThen (env.automationNew, tr) fun _ tr =>
  andThen (sendStep customerScreen ("{up}" ++ customer_code ++ "{enter}")
      (SHORT_WAIT_MS / 4) env.sendCustomerKeys tr) fun _ tr =>
  andThen (findAllStep (jdfTextBoxMatcher customerScreen)
      env.findAllTextBoxes tr) fun boxes tr =>
  match boxes[28]? with
  | none => (.ok "", tr)
  | some b => (b.value, tr)

/-- Provider outcomes for one run of `send_ctrl_n` (src/lib.rs lines
228-253): `UIAutomation::new()`, the held Ctrl+N dispatch, the
`get_root_element`, the popup `find_first` (inspected, not propagated), and
the keystroke sent to the popup when present. -/
structure SendCtrlNEnv where
  automationNew : Res Unit
  holdCtrlN : Res Unit
  rootElem : Res Unit
  findPopup : Res UIElem
  popupSend : Res Unit
deriving Repr

/-- Embedding of `send_ctrl_n` (src/lib.rs lines 228-253).  Hold Ctrl and
send N, wait, then look for the "Save changes before proceeding?" popup with
a short timeout; if found, send `{enter}` when saving or `{right}{enter}`
when discarding; if not found, do nothing further and return `Ok(())`. -/
def send_ctrl_n (env : SendCtrlNEnv) (abcWindow : String)
    (save_changes : Bool) (tr : List Action) : Res Unit × List Action :=
  andThen (env.automationNew, tr) fun _ tr =>
  andThen (holdStep abcWindow "{Ctrl}" "N" SHORT_WAIT_MS env.holdCtrlN tr) fun _ tr =>
  andThen (waitStep SHORT_WAIT_MS tr) fun _ tr =>
  andThen (env.rootElem, tr) fun _ tr =>
  andThen (findFirstTryStep saveChangesPopupMatcher tr) fun _ tr =>
  match env.findPopup, save_changes with
  | .ok popup, true =>
    andThen (sendStep popup.id "{enter}" SHORT_WAIT_MS env.popupSend tr) fun _ tr =>
    (.ok (), tr)
  | .ok popup, false =>
    andThen (sendStep popup.id "{right}{enter}" SHORT_WAIT_MS env.popupSend tr) fun _ tr =>
    (.ok (), tr)
  | .error _, _ => (.ok (), tr)

/-- Provider outcomes for one run of `load_invoices_screen` /
`load_customer_screen`: `UIAutomation::new()`, the pre-check
`get_root_element` and `find_first` (inspected, not propagated), the opening
macro `send_keys`, and the retry `get_root_element` and `find_first`. -/
structure EnsureScreenEnv where
  automationNew : Res Unit
  rootElem1 : Res Unit
  findScreen1 : Res UIElem
  sendOpenKeys : Res Unit
  rootElem2 : Res Unit
  findScreen2 : Res UIElem
deriving Repr

/-- Embedding of `load_invoices_screen` (src/lib.rs lines 324-339,
duplicated in src/accounts_receivable.rs lines 24-39).  Try to locate the
invoices screen; if found return it at once, otherwise send `{F10}R` to the
ABC window and locate again, propagating that second result. -/
def load_invoices_screen (env : EnsureScreenEnv) (abcWindow : String)
    (tr : List Action) : Res UIElem × List Action :=
  andThen (env.automationNew, tr) fun _ tr =>
  andThen (env.rootElem1, tr) fun _ tr =>
  andThen (findFirstTryStep invoicesScreenMatcher tr) fun _ tr =>
  match env.findScreen1 with
  | .ok scr => (.ok scr, tr)
  | .error _ =>
    andThen (sendStep abcWindow "{F10}R" (SHORT_WAIT_MS * 3) env.sendOpenKeys tr) fun _ tr =>
    andThen (env.rootElem2, tr) fun _ tr =>
    findFirstStep invoicesScreenMatcher env.findScreen2 tr

/-- Embedding of `load_customer_screen` (src/customer_file.rs lines 24-39,
duplicated in src/lib.rs lines 192-207).  Same two-phase pattern with the
customers screen predicate and the `{F10}C` opening macro. -/
def load_customer_screen (env : EnsureScreenEnv) (abcWindow : String)
    (tr : List Action) : Res UIElem × List Action :=
  andThen (env.automationNew, tr) fun _ tr =>
  andThen (env.rootElem1, tr) fun _ tr =>
  andThen (findFirstTryStep customersScreenMatcher tr) fun _ tr =>
  match env.findScreen1 with
  | .ok scr => (.ok scr, tr)
  | .error _ =>
    andThen (sendStep abcWindow "{F10}C" (SHORT_WAIT_MS * 3) env.sendOpenKeys tr) fun _ tr =>
    andThen (env.rootElem2, tr) fun _ tr =>
    findFirstStep customersScreenMatcher env.findScreen2 tr

/-- A `LoadInvoiceEnv` in which every provider call succeeds, finding `ctrl`
as the invoice-number control. -/
def okLoadEnv (ctrl : UIElem) : LoadInvoiceEnv :=
  ⟨.ok (), .ok (), .ok ctrl, .ok (), .ok ()⟩

/-- Trace of a successful `load_invoice` run: the find query, the click on
the invoice-number control, and the typed invoice number. -/
def loadInvoiceTrace (w : String) (n : Nat) (ctrl : UIElem) : List Action :=
  [.findFirstQ (invoiceTextBoxMatcher w), .click ctrl.id,
   .sendKeys ctrl.id (toString n ++ "{enter}") SHORT_WAIT_MS]

/-- Trace of `send_invoice_to_jdf` / `is_invoice_fully_paid` up to and
including the `find_all` that collects the text boxes. -/
def probeTrace (w : String) (n : Nat) (ctrl : UIElem) : List Action :=
  loadInvoiceTrace w n ctrl ++ [.findAllQ (invoiceTextBoxMatcher w)]

/-- Trace of `send_invoice_to_jdf` up to and including the resubmission
macro, the settle wait and the read-back find of the first text box. -/
def resubmitTrace (w : String) (n : Nat) (ctrl : UIElem) : List Action :=
  probeTrace w n ctrl ++
    [.sendKeys w "{F9}7R" (SHORT_WAIT_MS * 3), .waitMs 2000,
     .findFirstQ (invoiceTextBoxMatcher w)]

/-- Trace of the not-sent path of `send_invoice_to_jdf`: resubmission and
read-back followed by acknowledge-escape, held Ctrl+N and the discard
selection keys. -/
def discardTrace (w : String) (n : Nat) (ctrl : UIElem) : List Action :=
  resubmitTrace w n ctrl ++
    [.sendKeys w "{enter}{esc}" (SHORT_WAIT_MS * 3),
     .holdSendKeys w "{ctrl}" "n" (SHORT_WAIT_MS * 3),
     .sendKeys w "{right}{enter}" (SHORT_WAIT_MS * 3)]

/-- Concrete text box whose value reads as the empty string, used to
instantiate theorems at concrete inputs. -/
def sampleBox : UIElem := ⟨"tb0", "ThunderRT6TextBox", "", .ok ""⟩

/-- Concrete text box whose value reads as "150.00". -/
def samplePaidBox : UIElem := ⟨"tb0", "ThunderRT6TextBox", "", .ok "150.00"⟩

/-- Concrete read-back control showing invoice number 123. -/
def backSame : UIElem := ⟨"tb1", "ThunderRT6TextBox", "", .ok "123"⟩

/-- Concrete read-back control showing invoice number 124. -/
def backDiff : UIElem := ⟨"tb1", "ThunderRT6TextBox", "", .ok "124"⟩

/-- Concrete screen element. -/
def sampleScreen : UIElem := ⟨"scr", "Window", "Sales - Invoices (R)", .ok ""⟩

/-- C1: with the paid field (index 29) reading empty after the load,
`send_invoice_to_jdf` sends the `{F9}7R` resubmission macro, re-reads the
first `ThunderRT6TextBox`, and then: if the read-back string equals the
decimal rendering of the invoice number it sends `{enter}{esc}`, a held
Ctrl+N and the `{right}{enter}` discard keys and returns `Ok(false)`; if it
differs it returns `Ok(true)` with no further keystrokes (the traces
`discardTrace` and `resubmitTrace` list every action of each outcome). -/
theorem send_invoice_to_jdf_empty_paid_readback_decides
    (w : String) (n : Nat) (ctrl ctrl2 : UIElem) (boxes : List UIElem)
    (paid : UIElem) (v : String)
    (h29 : boxes[29]? = some paid) (hpaid : paid.value = .ok "")
    (hback : ctrl2.value = .ok v) :
    send_invoice_to_jdf
        ⟨.ok (), okLoadEnv ctrl, .ok (), .ok boxes, .ok (), .ok (), .ok ctrl2,
         .ok (), .ok (), .ok ()⟩ w n []
      = if toString n = v then (.ok false, discardTrace w n ctrl)
        else (.ok true, resubmitTrace w n ctrl) := by
  simp [send_invoice_to_jdf, load_invoice, okLoadEnv, andThen, sendStep, holdStep,
    clickStep, findFirstStep, findAllStep, waitStep, getOrdinal, h29, hback, hpaid,
    discardTrace, resubmitTrace, probeTrace, loadInvoiceTrace]

/-- Witness for C1: invoice 123 with read-back "123" takes the discard path
and reports false; with read-back "124" it reports true after the read-back
with no further keystrokes. -/
theorem send_invoice_to_jdf_empty_paid_readback_decides_check :
    send_invoice_to_jdf
        ⟨.ok (), okLoadEnv sampleBox, .ok (), .ok (List.replicate 30 sampleBox),
         .ok (), .ok (), .ok backSame, .ok (), .ok (), .ok ()⟩ "inv" 123 []
      = (.ok false, discardTrace "inv" 123 sampleBox)
  ∧ send_invoice_to_jdf
        ⟨.ok (), okLoadEnv sampleBox, .ok (), .ok (List.replicate 30 sampleBox),
         .ok (), .ok (), .ok backDiff, .ok (), .ok (), .ok ()⟩ "inv" 123 []
      = (.ok true, resubmitTrace "inv" 123 sampleBox) :=
  ⟨send_invoice_to_jdf_empty_paid_readback_decides "inv" 123 sampleBox backSame
      (List.replicate 30 sampleBox) sampleBox "123" rfl rfl rfl,
   send_invoice_to_jdf_empty_paid_readback_decides "inv" 123 sampleBox backDiff
      (List.replicate 30 sampleBox) sampleBox "124" rfl rfl rfl⟩

/-- C2: with the paid (index 29) and total (index 38) fields present and
readable, `is_invoice_fully_paid` returns `Ok(pv == tv)`, and that boolean is
true exactly when the two displayed strings are byte-for-byte equal: the
comparison is strict string equality, so any mismatch, including case or
whitespace differences, yields `Ok(false)`. -/
theorem is_invoice_fully_paid_strict_string_equality
    (w : String) (n : Nat) (ctrl : UIElem) (boxes : List UIElem)
    (paid total : UIElem) (pv tv : String)
    (h29 : boxes[29]? = some paid) (h38 : boxes[38]? = some total)
    (hpv : paid.value = .ok pv) (htv : total.value = .ok tv) :
    is_invoice_fully_paid ⟨.ok (), okLoadEnv ctrl, .ok (), .ok boxes⟩ w n []
      = (.ok (pv == tv), probeTrace w n ctrl)
    ∧ ((pv == tv) = true ↔ pv = tv) := by
  constructor
  · simp [is_invoice_fully_paid, load_invoice, okLoadEnv, andThen, sendStep, clickStep,
      findFirstStep, findAllStep, getOrdinal, h29, h38, hpv, htv, probeTrace,
      loadInvoiceTrace]
  · exact beq_iff_eq

/-- Witness for C2 at a concrete UI state where both fields read the empty
string. -/
theorem is_invoice_fully_paid_strict_string_equality_check :
    is_invoice_fully_paid
        ⟨.ok (), okLoadEnv sampleBox, .ok (), .ok (List.replicate 40 sampleBox)⟩
        "inv" 123 []
      = (.ok (("" : String) == ""), probeTrace "inv" 123 sampleBox)
    ∧ ((("" : String) == "") = true ↔ ("" : String) = "") :=
  is_invoice_fully_paid_strict_string_equality "inv" 123 sampleBox
    (List.replicate 40 sampleBox) sampleBox sampleBox "" "" rfl rfl rfl rfl

/-- C3: when the paid field (index 29) reads as a non-empty string after the
load, `send_invoice_to_jdf` returns `Ok(true)` immediately: the trace stops
at the `find_all`, so neither the resubmission macro nor any later keystroke
is sent, whatever the provider would have answered to them. -/
theorem send_invoice_to_jdf_nonempty_paid_short_circuit
    (w : String) (n : Nat) (ctrl : UIElem) (boxes : List UIElem)
    (paid : UIElem) (pv : String)
    (h29 : boxes[29]? = some paid) (hpv : paid.value = .ok pv) (hne : pv ≠ "")
    (r5 : Res Unit) (r6 : Res Unit) (r7 : Res UIElem) (r8 r9 r10 : Res Unit) :
    send_invoice_to_jdf
        ⟨.ok (), okLoadEnv ctrl, .ok (), .ok boxes, r5, r6, r7, r8, r9, r10⟩ w n []
      = (.ok true, probeTrace w n ctrl) := by
  simp [send_invoice_to_jdf, load_invoice, okLoadEnv, andThen, sendStep, clickStep,
    findFirstStep, findAllStep, getOrdinal, h29, hpv, hne, probeTrace, loadInvoiceTrace]

/-- Witness for C3: a paid field reading "150.00" short-circuits to
`Ok(true)`. -/
theorem send_invoice_to_jdf_nonempty_paid_short_circuit_check :
    send_invoice_to_jdf
        ⟨.ok (), okLoadEnv sampleBox, .ok (), .ok (List.replicate 30 samplePaidBox),
         .ok (), .ok (), .ok backSame, .ok (), .ok (), .ok ()⟩ "inv" 123 []
      = (.ok true, probeTrace "inv" 123 sampleBox) :=
  send_invoice_to_jdf_nonempty_paid_short_circuit "inv" 123 sampleBox
    (List.replicate 30 samplePaidBox) samplePaidBox "150.00" rfl rfl
    (by decide) (.ok ()) (.ok ()) (.ok backSame) (.ok ()) (.ok ()) (.ok ())

/-- Counterexample to C4 as stated: with zero `ThunderRT6TextBox` controls
under the customer screen (fewer than 29), `jdf_account_by_customer` does
not fail: it returns the defaulted value `Ok("")`. -/
theorem jdf_account_missing_ordinal_returns_ok_empty :
    jdf_account_by_customer ⟨.ok (), .ok (), .ok []⟩ "cust" "DOEJO 0" []
      = (.ok "", [Action.sendKeys "cust" ("{up}" ++ "DOEJO 0" ++ "{enter}")
                    (SHORT_WAIT_MS / 4),
                  Action.findAllQ (jdfTextBoxMatcher "cust")]) := rfl

/-- C4 amended: out-of-range ordinal access in `send_invoice_to_jdf` (index
29) and in `is_invoice_fully_paid` (index 29, and index 38 when 29 is
present) fails with a reported error and never substitutes a default, but
`jdf_account_by_customer` is an exception: when index 28 is beyond the
collected controls it returns the defaulted value `Ok("")` instead of an
error, exactly as its own documentation states. -/
theorem out_of_range_ordinal_error_vs_default
    (cs code : String) (boxes : List UIElem) (h28 : boxes[28]? = none)
    (w : String) (n : Nat) (ctrl : UIElem) (boxesS : List UIElem)
    (h29 : boxesS[29]? = none)
    (r5 : Res Unit) (r6 : Res Unit) (r7 : Res UIElem) (r8 r9 r10 : Res Unit)
    (boxesP : List UIElem) (h29p : boxesP[29]? = none)
    (boxesT : List UIElem) (paid : UIElem)
    (h29t : boxesT[29]? = some paid) (h38t : boxesT[38]? = none) :
    jdf_account_by_customer ⟨.ok (), .ok (), .ok boxes⟩ cs code []
        = (.ok "", [Action.sendKeys cs ("{up}" ++ code ++ "{enter}") (SHORT_WAIT_MS / 4),
                    Action.findAllQ (jdfTextBoxMatcher cs)])
  ∧ send_invoice_to_jdf
        ⟨.ok (), okLoadEnv ctrl, .ok (), .ok boxesS, r5, r6, r7, r8, r9, r10⟩ w n []
        = (.error ⟨2, "could not find paid control"⟩, probeTrace w n ctrl)
  ∧ is_invoice_fully_paid ⟨.ok (), okLoadEnv ctrl, .ok (), .ok boxesP⟩ w n []
        = (.error ⟨2, "could not find paid control"⟩, probeTrace w n ctrl)
  ∧ is_invoice_fully_paid ⟨.ok (), okLoadEnv ctrl, .ok (), .ok boxesT⟩ w n []
        = (.error ⟨2, "could not find invoice total control"⟩, probeTrace w n ctrl) := by
  refine ⟨?_, ?_, ?_, ?_⟩
  · simp [jdf_account_by_customer, andThen, sendStep, findAllStep, h28]
  · simp [send_invoice_to_jdf, load_invoice, okLoadEnv, andThen, sendStep, clickStep,
      findFirstStep, findAllStep, getOrdinal, h29, probeTrace, loadInvoiceTrace]
  · simp [is_invoice_fully_paid, load_invoice, okLoadEnv, andThen, sendStep, clickStep,
      findFirstStep, findAllStep, getOrdinal, h29p, probeTrace, loadInvoiceTrace]
  · simp [is_invoice_fully_paid, load_invoice, okLoadEnv, andThen, sendStep, clickStep,
      findFirstStep, findAllStep, getOrdinal, h29t, h38t, probeTrace, loadInvoiceTrace]

/-- Witness for the amended C4: empty control lists for the defaulted jdf
lookup and the two missing-paid cases, a 30-element list for the
missing-total case. -/
theorem out_of_range_ordinal_error_vs_default_check :
    jdf_account_by_customer ⟨.ok (), .ok (), .ok []⟩ "cust2" "SMITH 0" []
        = (.ok "", [Action.sendKeys "cust2" ("{up}" ++ "SMITH 0" ++ "{enter}")
                      (SHORT_WAIT_MS / 4),
                    Action.findAllQ (jdfTextBoxMatcher "cust2")])
  ∧ send_invoice_to_jdf
        ⟨.ok (), okLoadEnv sampleBox, .ok (), .ok [], .ok (), .ok (), .ok backSame,
         .ok (), .ok (), .ok ()⟩ "inv" 123 []
        = (.error ⟨2, "could not find paid control"⟩, probeTrace "inv" 123 sampleBox)
  ∧ is_invoice_fully_paid ⟨.ok (), okLoadEnv sampleBox, .ok (), .ok []⟩ "inv" 123 []
        = (.error ⟨2, "could not find paid control"⟩, probeTrace "inv" 123 sampleBox)
  ∧ is_invoice_fully_paid
        ⟨.ok (), okLoadEnv sampleBox, .ok (), .ok (List.replicate 30 sampleBox)⟩
        "inv" 123 []
        = (.error ⟨2, "could not find invoice total control"⟩,
           probeTrace "inv" 123 sampleBox) :=
  out_of_range_ordinal_error_vs_default "cust2" "SMITH 0" [] rfl "inv" 123 sampleBox
    [] rfl (.ok ()) (.ok ()) (.ok backSame) (.ok ()) (.ok ()) (.ok ())
    [] rfl (List.replicate 30 sampleBox) sampleBox rfl rfl

/-- Counterexample to C5 as stated: when the paid ordinal 29 is missing, the
error returned by `send_invoice_to_jdf` is code 2 with message "could not
find paid control", a message containing no digit at all, so it does not
carry the attempted index. -/
theorem paid_control_error_message_has_no_index :
    (send_invoice_to_jdf
        ⟨.ok (), okLoadEnv sampleBox, .ok (), .ok [], .ok (), .ok (), .ok backSame,
         .ok (), .ok (), .ok ()⟩ "inv" 123 []).1
      = .error ⟨2, "could not find paid control"⟩
    ∧ "could not find paid control".data.all (fun c => !c.isDigit) = true := by
  exact ⟨rfl, by decide⟩

/-- C5 amended: an out-of-range paid ordinal (29) in `send_invoice_to_jdf`
and an out-of-range total ordinal (38) in `is_invoice_fully_paid` each fail
with error code 2 and a fixed message naming the missing control; the
messages distinguish which control was missing but contain no digits, hence
not the attempted numeric index. -/
theorem ordinal_errors_carry_code_and_fixed_message
    (w : String) (n : Nat) (ctrl : UIElem)
    (boxes1 : List UIElem) (h29 : boxes1[29]? = none)
    (r5 : Res Unit) (r6 : Res Unit) (r7 : Res UIElem) (r8 r9 r10 : Res Unit)
    (boxes2 : List UIElem) (paid : UIElem)
    (h29b : boxes2[29]? = some paid) (h38 : boxes2[38]? = none) :
    (send_invoice_to_jdf
        ⟨.ok (), okLoadEnv ctrl, .ok (), .ok boxes1, r5, r6, r7, r8, r9, r10⟩ w n []).1
        = .error ⟨2, "could not find paid control"⟩
  ∧ (is_invoice_fully_paid ⟨.ok (), okLoadEnv ctrl, .ok (), .ok boxes2⟩ w n []).1
        = .error ⟨2, "could not find invoice total control"⟩
  ∧ "could not find paid control".data.all (fun c => !c.isDigit) = true
  ∧ "could not find invoice total control".data.all (fun c => !c.isDigit) = true := by
  refine ⟨?_, ?_, by decide, by decide⟩
  · simp [send_invoice_to_jdf, load_invoice, okLoadEnv, andThen, sendStep, clickStep,
      findFirstStep, findAllStep, getOrdinal, h29]
  · simp [is_invoice_fully_paid, load_invoice, okLoadEnv, andThen, sendStep, clickStep,
      findFirstStep, findAllStep, getOrdinal, h29b, h38]

/-- Witness for the amended C5: an empty control list for the paid case and
a 30-element list for the missing-total case. -/
theorem ordinal_errors_carry_code_and_fixed_message_check :
    (send_invoice_to_jdf
        ⟨.ok (), okLoadEnv sampleBox, .ok (), .ok [], .ok (), .ok (), .ok backDiff,
         .ok (), .ok (), .ok ()⟩ "inv" 124 []).1
        = .error ⟨2, "could not find paid control"⟩
  ∧ (is_invoice_fully_paid
        ⟨.ok (), okLoadEnv sampleBox, .ok (), .ok (List.replicate 30 sampleBox)⟩
        "inv" 124 []).1
        = .error ⟨2, "could not find invoice total control"⟩
  ∧ "could not find paid control".data.all (fun c => !c.isDigit) = true
  ∧ "could not find invoice total control".data.all (fun c => !c.isDigit) = true :=
  ordinal_errors_carry_code_and_fixed_message "inv" 124 sampleBox [] rfl
    (.ok ()) (.ok ()) (.ok backDiff) (.ok ()) (.ok ()) (.ok ())
    (List.replicate 30 sampleBox) sampleBox rfl rfl

/-- C6: `send_ctrl_n` sends the held Ctrl+N; if the save-changes dialog is
not found within its short timeout it returns `Ok(())` having dispatched no
keystroke beyond that initial Ctrl+N (the filtered trace shows exactly one
keystroke action); if the dialog is found it sends `{enter}` to it when
`save_changes` is true, and `{right}{enter}` when false. -/
theorem send_ctrl_n_dialog_branches
    (abc : String) (save : Bool) (e : UIErr) (popup : UIElem) (ps : Res Unit) :
    send_ctrl_n ⟨.ok (), .ok (), .ok (), .error e, ps⟩ abc save []
      = (.ok (), [.holdSendKeys abc "{Ctrl}" "N" SHORT_WAIT_MS, .waitMs SHORT_WAIT_MS,
                  .findFirstQ saveChangesPopupMatcher])
  ∧ send_ctrl_n ⟨.ok (), .ok (), .ok (), .ok popup, .ok ()⟩ abc true []
      = (.ok (), [.holdSendKeys abc "{Ctrl}" "N" SHORT_WAIT_MS, .waitMs SHORT_WAIT_MS,
                  .findFirstQ saveChangesPopupMatcher,
                  .sendKeys popup.id "{enter}" SHORT_WAIT_MS])
  ∧ send_ctrl_n ⟨.ok (), .ok (), .ok (), .ok popup, .ok ()⟩ abc false []
      = (.ok (), [.holdSendKeys abc "{Ctrl}" "N" SHORT_WAIT_MS, .waitMs SHORT_WAIT_MS,
                  .findFirstQ saveChangesPopupMatcher,
                  .sendKeys popup.id "{right}{enter}" SHORT_WAIT_MS])
  ∧ ([Action.holdSendKeys abc "{Ctrl}" "N" SHORT_WAIT_MS, Action.waitMs SHORT_WAIT_MS,
      Action.findFirstQ saveChangesPopupMatcher].filter Action.isKeystroke)
      = [Action.holdSendKeys abc "{Ctrl}" "N" SHORT_WAIT_MS] :=
  ⟨rfl, rfl, rfl, rfl⟩

/-- C7: when the target screen is already locatable by its name-contains
predicate, `load_invoices_screen` and `load_customer_screen` return that
existing element with a trace containing only the pre-check find query:
filtering it for keystroke dispatches gives the empty list, so the opening
macro is never sent, whatever the provider would answer later. -/
theorem ensure_screen_present_sends_no_keys
    (abcW abcC : String) (scr scrC : UIElem)
    (r4 r5 : Res Unit) (r6 : Res UIElem) (s4 s5 : Res Unit) (s6 : Res UIElem) :
    load_invoices_screen ⟨.ok (), .ok (), .ok scr, r4, r5, r6⟩ abcW []
      = (.ok scr, [Action.findFirstQ invoicesScreenMatcher])
  ∧ load_customer_screen ⟨.ok (), .ok (), .ok scrC, s4, s5, s6⟩ abcC []
      = (.ok scrC, [Action.findFirstQ customersScreenMatcher])
  ∧ [Action.findFirstQ invoicesScreenMatcher].filter Action.isKeystroke = []
  ∧ [Action.findFirstQ customersScreenMatcher].filter Action.isKeystroke = [] :=
  ⟨rfl, rfl, rfl, rfl⟩

/-- Counterexample to C8 as stated: a run of `load_invoices_screen` whose
pre-check fails issues the pre-check and the retry with the very same query
`invoicesScreenMatcher`, so the retry timeout is not strictly greater than
the pre-check timeout. -/
theorem ensure_screen_retry_timeout_not_greater :
    load_invoices_screen
        ⟨.ok (), .ok (), .error ⟨1, "timeout"⟩, .ok (), .ok (), .ok sampleScreen⟩
        "abc" []
      = (.ok sampleScreen,
         [Action.findFirstQ invoicesScreenMatcher,
          Action.sendKeys "abc" "{F10}R" (SHORT_WAIT_MS * 3),
          Action.findFirstQ invoicesScreenMatcher])
    ∧ ¬ invoicesScreenMatcher.timeout > invoicesScreenMatcher.timeout :=
  ⟨rfl, by decide⟩

/-- C8 amended: in both ensure-screen operations the pre-check locate and
the post-macro retry locate use the same matcher, and hence the same timeout
`SHORT_WAIT_MS * 30` installed by `create_matcher_wrapper`; the retry
timeout equals, rather than strictly exceeds, the pre-check timeout. -/
theorem ensure_screen_same_timeout_both_locates
    (abc abcC : String) (e eC : UIErr) (scr2 scrC2 : Res UIElem) :
    load_invoices_screen ⟨.ok (), .ok (), .error e, .ok (), .ok (), scr2⟩ abc []
      = (scr2, [Action.findFirstQ invoicesScreenMatcher,
          Action.sendKeys abc "{F10}R" (SHORT_WAIT_MS * 3),
          Action.findFirstQ invoicesScreenMatcher])
  ∧ load_customer_screen ⟨.ok (), .ok (), .error eC, .ok (), .ok (), scrC2⟩ abcC []
      = (scrC2, [Action.findFirstQ customersScreenMatcher,
          Action.sendKeys abcC "{F10}C" (SHORT_WAIT_MS * 3),
          Action.findFirstQ customersScreenMatcher])
  ∧ invoicesScreenMatcher.timeout = create_matcher_wrapper_timeout
  ∧ customersScreenMatcher.timeout = create_matcher_wrapper_timeout :=
  ⟨rfl, rfl, rfl, rfl⟩

/-- C9: in `generate_report_323` and `generate_report_311`, a failed
keystroke injection aborts the macro immediately: the error propagates, the
later send-keys steps never appear in the trace, and the steps already sent
remain in the trace (no rollback).  Shown for a failure at the first step,
at the second step, and for `generate_report_323` at the third step. -/
theorem report_macros_abort_on_first_failed_step
    (abc : String) (a b : Nat) (e : UIErr) (r2 r3 : Res Unit) :
    generate_report_323 ⟨.error e, r2, r3⟩ abc a b []
      = (.error e, [Action.sendKeys abc "{F10}3" (SHORT_WAIT_MS * 3)])
  ∧ generate_report_323 ⟨.ok (), .error e, r3⟩ abc a b []
      = (.error e, [Action.sendKeys abc "{F10}3" (SHORT_WAIT_MS * 3),
          Action.waitMs (SHORT_WAIT_MS * 5),
          Action.sendKeys abc "23{enter}" (SHORT_WAIT_MS / 2)])
  ∧ generate_report_323 ⟨.ok (), .ok (), .error e⟩ abc a b []
      = (.error e, [Action.sendKeys abc "{F10}3" (SHORT_WAIT_MS * 3),
          Action.waitMs (SHORT_WAIT_MS * 5),
          Action.sendKeys abc "23{enter}" (SHORT_WAIT_MS / 2),
          Action.waitMs (SHORT_WAIT_MS * 5),
          Action.sendKeys abc
            ("{enter}" ++ toString a ++ "{enter}" ++ toString b ++ "{enter}t")
            (SHORT_WAIT_MS / 2)])
  ∧ generate_report_311 ⟨.error e, r2, r3⟩ abc a b []
      = (.error e, [Action.sendKeys abc "{F10}3" (SHORT_WAIT_MS * 3)])
  ∧ generate_report_311 ⟨.ok (), .error e, r3⟩ abc a b []
      = (.error e, [Action.sendKeys abc "{F10}3" (SHORT_WAIT_MS * 3),
          Action.waitMs (SHORT_WAIT_MS * 5),
          Action.sendKeys abc "11{enter}{enter}{enter}" (SHORT_WAIT_MS / 2)]) :=
  ⟨rfl, rfl, rfl, rfl, rfl⟩

/-- C10: with both the paid field (index 29) and the total field (index 38)
present and both displaying the empty string, `is_invoice_fully_paid`
returns `Ok(true)`: a completely unpaid invoice whose total display is empty
is classified as fully paid, because the comparison is plain string
equality. -/
theorem is_invoice_fully_paid_both_empty_returns_true
    (w : String) (n : Nat) (ctrl : UIElem) (boxes : List UIElem)
    (paid total : UIElem)
    (h29 : boxes[29]? = some paid) (h38 : boxes[38]? = some total)
    (hpv : paid.value = .ok "") (htv : total.value = .ok "") :
    is_invoice_fully_paid ⟨.ok (), okLoadEnv ctrl, .ok (), .ok boxes⟩ w n []
      = (.ok true, probeTrace w n ctrl) := by
  simp [is_invoice_fully_paid, load_invoice, okLoadEnv, andThen, sendStep, clickStep,
    findFirstStep, findAllStep, getOrdinal, h29, h38, hpv, htv, probeTrace,
    loadInvoiceTrace]

/-- Witness for C10 at a concrete 40-element control list of empty-valued
boxes. -/
theorem is_invoice_fully_paid_both_empty_returns_true_check :
    is_invoice_fully_paid
        ⟨.ok (), okLoadEnv sampleBox, .ok (), .ok (List.replicate 40 sampleBox)⟩
        "inv" 777 []
      = (.ok true, probeTrace "inv" 777 sampleBox) :=
  is_invoice_fully_paid_both_empty_returns_true "inv" 777 sampleBox
    (List.replicate 40 sampleBox) sampleBox sampleBox rfl rfl rfl rfl

end Abc
